import Mathlib

/-
  Verification of the request/response bridging protocol of the registry
  repository: the Redis-backed MCP relay (message endpoint, handler-side
  subscriber, Next.js adapter) and the direct SSE streaming endpoint.

  The embedding follows the TypeScript sources:
  - the MCP API handler module (handleMessageEndpoint, handleMessage,
    createFakeIncomingMessage, createNextJsAdapter);
  - the SSE route module (createSseStream and its sseCleanup closure).
-/

namespace McpBridge

/-- A structural model of JSON values as produced by JSON.stringify and
consumed by JSON.parse.  Numbers are restricted to naturals because the
envelopes exchanged by the relay only carry HTTP status codes. -/
inductive Json where
  | str (s : String)
  | num (n : Nat)
  | obj (fields : List (String × Json))
  | nullJ

/-- HTTP headers, modelled as an association list of string names and
string values (the shape IncomingHttpHeaders takes after a JSON round
trip in the relay's envelopes). -/
abbrev Headers := List (String × String)

/-- The request envelope `SerializedRequest` passed through Redis:
requestId, url, method, body, headers. -/
structure SerializedRequest where
  requestId : String
  url : String
  method : String
  body : String
  headers : Headers
deriving DecidableEq, Repr

/-- The response envelope `SerializedResponse` passed through Redis:
status and body. -/
structure SerializedResponse where
  status : Nat
  body : String
deriving DecidableEq, Repr

/-- Channel carrying request envelopes for a session. -/
def requestsChannel (sessionId : String) : String :=
  "requests:" ++ sessionId

/-- Per-request reply channel. -/
def responsesChannel (sessionId requestId : String) : String :=
  "responses:" ++ sessionId ++ ":" ++ requestId

/-- Event channel of the direct SSE stream. -/
def eventsChannel (sessionId : String) : String :=
  "events:" ++ sessionId

/-- Session lifecycle channel of the direct SSE stream. -/
def sessionChannel (sessionId : String) : String :=
  "session:" ++ sessionId

/-- Field lookup in a JSON object, as JavaScript property access on a
parsed object (first binding wins). -/
def jsonLookup (fields : List (String × Json)) (key : String) : Option Json :=
  match fields with
  | [] => none
  | (k, v) :: rest => if k = key then some v else jsonLookup rest key

/-- The JSON fields of a headers object, one string field per header. -/
def headersJsonFields (hs : Headers) : List (String × Json) :=
  hs.map fun p => (p.1, Json.str p.2)

/-- Reading a headers object back from JSON fields; fails on any
non-string field value. -/
def jsonFieldsToHeaders (fields : List (String × Json)) : Option Headers :=
  match fields with
  | [] => some []
  | (k, Json.str v) :: rest =>
      (jsonFieldsToHeaders rest).map fun hs => (k, v) :: hs
  | _ => none

/-- JSON.stringify of a request envelope, modelled structurally: the
object literal the message endpoint serializes onto the wire. -/
def requestEnvelopeToJson (r : SerializedRequest) : Json :=
  Json.obj [("requestId", Json.str r.requestId),
            ("url", Json.str r.url),
            ("method", Json.str r.method),
            ("body", Json.str r.body),
            ("headers", Json.obj (headersJsonFields r.headers))]

/-- JSON.parse of a wire message into a request envelope, reading each
field the handler side accesses (requestId, url, method, body,
headers); fails if the shape does not match. -/
def jsonToRequestEnvelope (j : Json) : Option SerializedRequest :=
  match j with
  | Json.obj fields =>
      match jsonLookup fields "requestId", jsonLookup fields "url",
            jsonLookup fields "method", jsonLookup fields "body",
            jsonLookup fields "headers" with
      | some (Json.str rid), some (Json.str u), some (Json.str m),
        some (Json.str b), some (Json.obj hf) =>
          (jsonFieldsToHeaders hf).map fun hs =>
            { requestId := rid, url := u, method := m, body := b, headers := hs }
      | _, _, _, _, _ => none
  | _ => none

/-- An inbound unary HTTP request as the relay sees it: Node's
IncomingMessage fields used by handleMessageEndpoint.  method and url
are optional, matching the TypeScript types and the `|| ""` guards. -/
structure IncomingRequest where
  method : Option String
  url : Option String
  headers : Headers
  body : String
deriving DecidableEq, Repr

/-- Serialization of an inbound request into a request envelope, as
built by handleMessageEndpoint: url and method fall back to the empty
string when absent. -/
def serializeRequest (requestId : String) (req : IncomingRequest) : SerializedRequest :=
  { requestId := requestId
    url := req.url.getD ""
    method := req.method.getD ""
    body := req.body
    headers := req.headers }

/-- Options accepted by createFakeIncomingMessage. -/
structure FakeIncomingMessageOptions where
  method : Option String := none
  url : Option String := none
  headers : Option Headers := none
  body : Option String := none

/-- The synthetic request object produced by createFakeIncomingMessage:
the fields it sets on the fake IncomingMessage, plus the body chunk
pushed onto its readable stream (none when the body option is absent or
falsy). -/
structure FakeIncomingMessage where
  method : String
  url : String
  headers : Headers
  bodyPushed : Option String
deriving DecidableEq, Repr

/-- createFakeIncomingMessage: defaults method to GET and url to the
root path when the option is undefined, and pushes the body onto the
stream only when it is truthy. -/
def createFakeIncomingMessage (options : FakeIncomingMessageOptions) : FakeIncomingMessage :=
  { method := options.method.getD "GET"
    url := options.url.getD "/"
    headers := options.headers.getD []
    bodyPushed :=
      match options.body with
      | none => none
      | some b => if b = "" then none else some b }

/-- Reconstruction of the synthetic transport object from a parsed
request envelope, as done by the handler-side subscriber. -/
def reconstructTransport (env : SerializedRequest) : FakeIncomingMessage :=
  createFakeIncomingMessage
    { method := some env.method
      url := some env.url
      headers := some env.headers
      body := some env.body }

/-- A broker interaction performed by the message endpoint, in program
order. -/
inductive BrokerAction where
  | subscribeAct (channel : String)
  | publishAct (channel : String) (payload : Json)

/-- The outcome of one run of handleMessageEndpoint up to the point it
returns: an immediate response (the 400 path) or none while awaiting
the reply, together with the broker actions performed, in order. -/
structure EndpointOutcome where
  immediateStatus : Option Nat
  immediateBody : Option String
  actions : List BrokerAction

/-- handleMessageEndpoint: extract the sessionId query parameter
(empty string when absent); with no sessionId respond 400 and touch the
broker not at all; otherwise subscribe to the per-request reply channel
and only then publish the serialized request envelope to the session's
request channel. -/
def handleMessageEndpoint (sessionIdParam : Option String) (requestId : String)
    (req : IncomingRequest) : EndpointOutcome :=
  let sessionId := sessionIdParam.getD ""
  if sessionId = "" then
    { immediateStatus := some 400
      immediateBody := some "No sessionId provided"
      actions := [] }
  else
    let serializedRequest := serializeRequest requestId req
    { immediateStatus := none
      immediateBody := none
      actions :=
        [ BrokerAction.subscribeAct (responsesChannel sessionId requestId),
          BrokerAction.publishAct (requestsChannel sessionId)
            (requestEnvelopeToJson serializedRequest) ] }

/-- The caller-visible state of one pending unary request after the
endpoint has subscribed and published: the session and request the
reply subscription is keyed on, the reply subscription, the 10-second
timer, the resolution seen by the caller, and a count of the
unsubscribe calls that actually removed the subscription. -/
structure PendingRequest where
  sessionId : String
  requestId : String
  timerActive : Bool
  subscribed : Bool
  resolvedStatus : Option Nat
  resolvedBody : Option String
  effectiveUnsubscribes : Nat
deriving DecidableEq, Repr

/-- The pending state established by handleMessageEndpoint right after
the awaited subscribe and the publish: timer armed, subscription live
on the reply channel of the given session and request, caller
unresolved. -/
def pendingAfterSubscribe (sessionId requestId : String) : PendingRequest :=
  { sessionId := sessionId
    requestId := requestId
    timerActive := true
    subscribed := true
    resolvedStatus := none
    resolvedBody := none
    effectiveUnsubscribes := 0 }

/-- redis.client.unsubscribe on the reply channel: removes the
subscription when present, otherwise has no effect. -/
def unsubscribeReply (s : PendingRequest) : PendingRequest :=
  if s.subscribed then
    { s with subscribed := false
             effectiveUnsubscribes := s.effectiveUnsubscribes + 1 }
  else s

/-- The res close handler registered by handleMessageEndpoint: clears
the timeout and unsubscribes from the reply channel. -/
def fireCloseHandler (s : PendingRequest) : PendingRequest :=
  unsubscribeReply { s with timerActive := false }

/-- res.statusCode assignment followed by res.end: resolves the caller
once (a second end is a no-op) and then fires the registered close
handler. -/
def resolveCaller (status : Nat) (body : String) (s : PendingRequest) : PendingRequest :=
  if s.resolvedStatus.isSome then s
  else fireCloseHandler { s with resolvedStatus := some status
                                 resolvedBody := some body }

/-- A message delivered on the reply channel: either parseable as a
response envelope or malformed JSON. -/
inductive WireResponse where
  | wellFormed (resp : SerializedResponse)
  | malformed (errMsg : String)

/-- The reply-channel subscription callback of handleMessageEndpoint:
clear the timeout, parse the message, and resolve the caller with the
envelope's status and body — or with 500 and a diagnostic when parsing
fails. -/
def onReplyMessage (msg : WireResponse) (s : PendingRequest) : PendingRequest :=
  let s1 := { s with timerActive := false }
  match msg with
  | WireResponse.wellFormed resp => resolveCaller resp.status resp.body s1
  | WireResponse.malformed errMsg =>
      resolveCaller 500 ("Failed to parse response: " ++ errMsg) s1

/-- The 10-second timeout callback of handleMessageEndpoint:
unsubscribe from the reply channel, then resolve the caller with 408
(which in turn fires the close handler). -/
def onTimeout (s : PendingRequest) : PendingRequest :=
  resolveCaller 408 "Request timed out" (unsubscribeReply s)

/-- A message delivered on the session's request channel: either
parseable as a request envelope or malformed JSON (JSON.parse throws
on it). -/
inductive WireRequestMsg where
  | parsed (req : SerializedRequest)
  | malformedReq (raw : String)
deriving DecidableEq, Repr

/-- What the protocol handler (transport.handlePostMessage) does with
the synthetic response object: completes, having optionally called
writeHead with a status and end with a body — or throws. -/
inductive HandlerOutcome where
  | completes (writeHeadStatus : Option Nat) (endBody : Option String)
  | throws (errMsg : String)
deriving DecidableEq, Repr

/-- JSON.stringify of a response envelope, modelled structurally. -/
def responseEnvelopeToJson (r : SerializedResponse) : Json :=
  Json.obj [("status", Json.num r.status), ("body", Json.str r.body)]

/-- The handler-side subscriber handleMessage, as the list of response
envelopes it publishes (channel and envelope).  A parseable message is
turned into synthetic transport objects (status starts at 100, body at
the empty string, overwritten by writeHead/end) and the captured pair
is published to the per-request reply channel.  When processing throws
after a successful parse, the catch block re-parses the message to
recover the requestId and publishes a status-500 envelope.  When the
message itself is malformed, that re-parse throws inside the inner try,
so nothing is published at all. -/
def handleMessage (sessionId : String) (msg : WireRequestMsg)
    (outcome : HandlerOutcome) : List (String × SerializedResponse) :=
  match msg with
  | WireRequestMsg.malformedReq _ => []
  | WireRequestMsg.parsed req =>
      match outcome with
      | HandlerOutcome.completes writeHeadStatus endBody =>
          [ (responsesChannel sessionId req.requestId,
             { status := writeHeadStatus.getD 100, body := endBody.getD "" }) ]
      | HandlerOutcome.throws errMsg =>
          [ (responsesChannel sessionId req.requestId,
             { status := 500, body := "Internal server error: " ++ errMsg }) ]

/-- Whether processing of a request-channel message throws: either the
message itself fails to parse, or the protocol handler raises while
handling it. -/
def processingThrows (msg : WireRequestMsg) (outcome : HandlerOutcome) : Bool :=
  match msg, outcome with
  | WireRequestMsg.malformedReq _, _ => true
  | WireRequestMsg.parsed _, HandlerOutcome.throws _ => true
  | WireRequestMsg.parsed _, HandlerOutcome.completes _ _ => false

/-- Whether a published pair is an error envelope with status 500. -/
def isError500 (p : String × SerializedResponse) : Bool :=
  p.2.status == 500

/-- How one run of the MCP API handler behaves with respect to the
synthetic ServerResponse the Next.js adapter hands it: it calls end
with a status and body, returns without ever calling end, never
settles (statusCode holds the response's status code, 200 by default),
or throws. -/
inductive HandlerRun where
  | endsWith (status : Nat) (body : String)
  | completesWithoutEnd
  | neverSettles (statusCode : Nat)
  | throwsErr (errMsg : String)
deriving DecidableEq, Repr

/-- How the adapter's caller-facing promise got resolved. -/
inductive Resolution where
  | viaEnd (status : Nat) (body : String)
  | noContent204
  | timeoutFallback (status : Nat)
  | handlerError (status : Nat)
deriving DecidableEq, Repr

/-- The resolution of the Next.js adapter's response promise for a
given handler run, none when the promise is never resolved.  Non-SSE
path: the overridden end resolves with the captured status; a handler
that returns without calling end is resolved with 204; the 30-second
fallback timeout resolves with the response's status code when truthy
(it defaults to 200) and with 504 otherwise; a thrown error resolves
with 500.  SSE path: an end with status 200 does not resolve (the
stream stays open), no 204 fallback and no timeout are applied. -/
def nextJsAdapterResolution (isSSE : Bool) (run : HandlerRun) : Option Resolution :=
  match run with
  | HandlerRun.endsWith status body =>
      if isSSE && status == 200 then none
      else some (Resolution.viaEnd status body)
  | HandlerRun.completesWithoutEnd =>
      if isSSE then none else some Resolution.noContent204
  | HandlerRun.neverSettles statusCode =>
      if isSSE then none
      else if statusCode ≠ 0 then some (Resolution.timeoutFallback statusCode)
      else some (Resolution.timeoutFallback 504)
  | HandlerRun.throwsErr _ => some (Resolution.handlerError 500)

/-- Whether a resolution came from the 30-second timeout fallback. -/
def isTimeoutFallback (r : Option Resolution) : Bool :=
  match r with
  | some (Resolution.timeoutFallback _) => true
  | _ => false

/-- safeResolve of the Next.js adapter: resolves the promise only when
it is not yet resolved (the isResolved guard); a later attempt leaves
the first resolution in place. -/
def safeResolve (state : Option Resolution) (attempt : Resolution) : Option Resolution :=
  match state with
  | some r => some r
  | none => some attempt

/-- The final state of the adapter's promise after a sequence of
resolution attempts (end, timeout, 204 completion, error), in the order
they fire, each going through safeResolve. -/
def runResolutionAttempts (attempts : List Resolution) : Option Resolution :=
  List.foldl safeResolve none attempts

/-- An occurrence observed by the direct SSE stream after the initial
connection frame, in delivery order: a 30-second keep-alive tick, a
message delivered on the session's event channel, or the failure of the
asynchronous broker subscription attempt. -/
inductive StreamOccurrence where
  | keepAliveTick (timestamp : Nat)
  | brokerEvent (payload : String)
  | subscribeFailed (err : String)
deriving DecidableEq, Repr

/-- A frame sent to the SSE client, identified by its payload: the
initial connection object, a ping heartbeat, a broker event forwarded
with its exact payload string, or the subscription-failure error
object. -/
inductive SseFrame where
  | connection (sessionId : String)
  | ping (timestamp : Nat)
  | eventFrame (payload : String)
  | errorFrame (err : String)
deriving DecidableEq, Repr

/-- The frame each stream occurrence produces: sendMessage is called
with the ping object, the broker message verbatim, or the error
object. -/
def occurrenceFrame (o : StreamOccurrence) : SseFrame :=
  match o with
  | StreamOccurrence.keepAliveTick t => SseFrame.ping t
  | StreamOccurrence.brokerEvent m => SseFrame.eventFrame m
  | StreamOccurrence.subscribeFailed e => SseFrame.errorFrame e

/-- The frames createSseStream sends to the client: the connection
frame with the session id first, then one frame per occurrence in
delivery order. -/
def sseFrames (sessionId : String) (occurrences : List StreamOccurrence) : List SseFrame :=
  SseFrame.connection sessionId :: occurrences.map occurrenceFrame

/-- The resources held by one direct SSE streaming session: the
keep-alive interval, the two Redis clients, the event-channel
subscription, and the log of lifecycle events published so far
(channel and event type). -/
structure SseSessionState where
  keepAliveActive : Bool
  subscriberConnected : Bool
  publisherConnected : Bool
  eventsSubscribed : Bool
  publishedEvents : List (String × String)
deriving DecidableEq, Repr

/-- The streaming session's cleanup routine (the sseCleanup closure):
clear the keep-alive interval, then inside a try block unsubscribe from
the event channel, publish the client_disconnected event to the session
channel, and disconnect both Redis clients.  A call on an already
disconnected subscriber makes the unsubscribe throw, which the catch
block swallows, skipping the publish and the disconnects; likewise a
disconnected publisher makes the publish throw before the event is
recorded. -/
def sseCleanup (sessionId : String) (s : SseSessionState) : SseSessionState :=
  let s1 : SseSessionState := { s with keepAliveActive := false }
  if s1.subscriberConnected then
    let s2 : SseSessionState := { s1 with eventsSubscribed := false }
    if s2.publisherConnected then
      let s3 : SseSessionState := { s2 with
        publishedEvents :=
          s2.publishedEvents ++ [(sessionChannel sessionId, "client_disconnected")] }
      { s3 with subscriberConnected := false, publisherConnected := false }
    else s2
  else s1

/-- How many client_disconnected events have been published to the
session channel of the given session. -/
def disconnectCount (sessionId : String) (s : SseSessionState) : Nat :=
  (s.publishedEvents.filter fun p =>
    p.1 == sessionChannel sessionId && p.2 == "client_disconnected").length

/-- The session state right after createSseStream has established the
stream: interval running, both clients connected, event channel
subscribed, only the client_connected event published. -/
def sseEstablishedState (sessionId : String) : SseSessionState :=
  { keepAliveActive := true
    subscriberConnected := true
    publisherConnected := true
    eventsSubscribed := true
    publishedEvents := [(sessionChannel sessionId, "client_connected")] }

/-- Whether a frame is a heartbeat or a forwarded event. -/
def isPingOrEvent (f : SseFrame) : Bool :=
  match f with
  | SseFrame.ping _ => true
  | SseFrame.eventFrame _ => true
  | _ => false

/-- Whether a stream occurrence is the failure of the broker
subscription attempt. -/
def isSubscribeFailure (o : StreamOccurrence) : Bool :=
  match o with
  | StreamOccurrence.subscribeFailed _ => true
  | _ => false

/-- A concrete inbound unary request used to instantiate the theorems
below on explicit inputs. -/
def sampleRequest : IncomingRequest :=
  { method := some "POST"
    url := some "/message?sessionId=abc"
    headers := [("content-type", "application/json")]
    body := "hello" }

/- ===================== Theorems ===================== -/

/-- Round trip of the headers object through its JSON fields. -/
theorem headers_round_trip (hs : Headers) :
    jsonFieldsToHeaders (headersJsonFields hs) = some hs := by
  induction hs with
  | nil => rfl
  | cons p rest ih =>
      obtain ⟨k, v⟩ := p
      show (jsonFieldsToHeaders (headersJsonFields rest)).map _ = _
      rw [ih]
      rfl

/-- Round trip of a request envelope through its JSON wire form. -/
theorem request_envelope_round_trip (r : SerializedRequest) :
    jsonToRequestEnvelope (requestEnvelopeToJson r) = some r := by
  obtain ⟨rid, u, m, b, hs⟩ := r
  show (jsonFieldsToHeaders (headersJsonFields hs)).map _ = _
  rw [headers_round_trip]
  rfl

/-- C1: in the unary message endpoint, for every request carrying a
nonempty sessionId, any publish of the request envelope to
requests:sessionId is preceded in the broker-action order by the
subscribe to the reply channel responses:sessionId:requestId. -/
theorem subscribe_established_before_publish
    (sid requestId : String) (req : IncomingRequest) (hsid : sid ≠ "")
    (k : Nat) (payload : Json)
    (hpub : ((handleMessageEndpoint (some sid) requestId req).actions).get? k
            = some (BrokerAction.publishAct (requestsChannel sid) payload)) :
    ∃ i, i < k ∧
      ((handleMessageEndpoint (some sid) requestId req).actions).get? i
        = some (BrokerAction.subscribeAct (responsesChannel sid requestId)) := by
  have hact : (handleMessageEndpoint (some sid) requestId req).actions
      = [BrokerAction.subscribeAct (responsesChannel sid requestId),
         BrokerAction.publishAct (requestsChannel sid)
           (requestEnvelopeToJson (serializeRequest requestId req))] := by
    simp [handleMessageEndpoint, hsid]
  rw [hact] at hpub
  match k, hpub with
  | 1, _ =>
      refine ⟨0, Nat.zero_lt_one, ?_⟩
      rw [hact]
      rfl

/-- Witness for C1 at a concrete session, request and payload. -/
theorem subscribe_established_before_publish_witness :
    ∃ i, i < 1 ∧
      ((handleMessageEndpoint (some "abc") "req-1" sampleRequest).actions).get? i
        = some (BrokerAction.subscribeAct (responsesChannel "abc" "req-1")) :=
  subscribe_established_before_publish "abc" "req-1" sampleRequest (by decide) 1
    (requestEnvelopeToJson (serializeRequest "req-1" sampleRequest)) rfl

/-- C2: for all sessions and requests, a well-formed response envelope
delivered on the reply channel before the timeout resolves the caller
with exactly the envelope's status and body, cancels the timer, and
removes the reply subscription. -/
theorem reply_resolves_caller_exactly (sid rid : String) (resp : SerializedResponse) :
    (onReplyMessage (WireResponse.wellFormed resp)
        (pendingAfterSubscribe sid rid)).resolvedStatus = some resp.status ∧
    (onReplyMessage (WireResponse.wellFormed resp)
        (pendingAfterSubscribe sid rid)).resolvedBody = some resp.body ∧
    (onReplyMessage (WireResponse.wellFormed resp)
        (pendingAfterSubscribe sid rid)).timerActive = false ∧
    (onReplyMessage (WireResponse.wellFormed resp)
        (pendingAfterSubscribe sid rid)).subscribed = false :=
  ⟨rfl, rfl, rfl, rfl⟩

/-- C3: with the sessionId query parameter absent or empty, the message
endpoint responds 400 immediately and performs no broker action. -/
theorem missing_session_no_broker_interaction
    (sessionIdParam : Option String) (requestId : String) (req : IncomingRequest)
    (h : sessionIdParam.getD "" = "") :
    (handleMessageEndpoint sessionIdParam requestId req).immediateStatus = some 400 ∧
    (handleMessageEndpoint sessionIdParam requestId req).actions = [] := by
  simp [handleMessageEndpoint, h]

/-- Witness for C3 at a request with no sessionId parameter. -/
theorem missing_session_no_broker_interaction_witness :
    (handleMessageEndpoint none "req-3" sampleRequest).immediateStatus = some 400 ∧
    (handleMessageEndpoint none "req-3" sampleRequest).actions = [] :=
  missing_session_no_broker_interaction none "req-3" sampleRequest rfl

/-- C4: when the 10-second timeout fires on a pending request, the
caller is resolved with 408 and the reply subscription is removed with
effect exactly once, even though the close path runs unsubscribe a
second time. -/
theorem timeout_resolves_408_unsubscribes_once (sid rid : String) :
    (onTimeout (pendingAfterSubscribe sid rid)).resolvedStatus = some 408 ∧
    (onTimeout (pendingAfterSubscribe sid rid)).resolvedBody = some "Request timed out" ∧
    (onTimeout (pendingAfterSubscribe sid rid)).subscribed = false ∧
    (onTimeout (pendingAfterSubscribe sid rid)).effectiveUnsubscribes = 1 :=
  ⟨rfl, rfl, rfl, rfl⟩

/-- C5 counterexample: a malformed request-channel message makes
processing throw, yet the subscriber publishes nothing at all — in
particular no status-500 envelope — because the catch block re-parses
the message and that re-parse throws inside the error-publish try. -/
theorem malformed_message_publishes_nothing :
    processingThrows (WireRequestMsg.malformedReq "not json")
      (HandlerOutcome.throws "boom") = true ∧
    ¬ ∃ p ∈ handleMessage "s1" (WireRequestMsg.malformedReq "not json")
        (HandlerOutcome.throws "boom"), isError500 p = true := by
  exact ⟨rfl, by simp [handleMessage]⟩

/-- C5 amended: for every request-channel message that parses as a
request envelope, if the protocol handler throws while processing it,
the subscriber publishes exactly one error envelope with status 500 to
the per-request reply channel. -/
theorem handler_throw_publishes_500 (sid : String) (req : SerializedRequest)
    (errMsg : String) :
    handleMessage sid (WireRequestMsg.parsed req) (HandlerOutcome.throws errMsg)
      = [(responsesChannel sid req.requestId,
          { status := 500, body := "Internal server error: " ++ errMsg })] :=
  rfl

/-- C6 counterexample: a handler run that finishes without ever calling
end on the synthetic response is resolved by the immediate no-content
(204) completion path, not by the timeout fallback. -/
theorem fallback_resolution_counterexample :
    nextJsAdapterResolution false HandlerRun.completesWithoutEnd
      = some Resolution.noContent204 ∧
    isTimeoutFallback (nextJsAdapterResolution false HandlerRun.completesWithoutEnd)
      = false :=
  ⟨rfl, rfl⟩

/-- C6 amended: the unary caller of the Next.js adapter never hangs: a
handler that returns without calling end is resolved with 204, a
handler that never settles is resolved by the 30-second timeout
fallback, and every handler run yields some resolution. -/
theorem adapter_fallback_resolution (statusCode : Nat) :
    nextJsAdapterResolution false HandlerRun.completesWithoutEnd
      = some Resolution.noContent204 ∧
    (∃ st, nextJsAdapterResolution false (HandlerRun.neverSettles statusCode)
      = some (Resolution.timeoutFallback st)) ∧
    (∀ run : HandlerRun, (nextJsAdapterResolution false run).isSome = true) := by
  refine ⟨rfl, ?_, ?_⟩
  · by_cases h : statusCode = 0
    · exact ⟨504, by simp [nextJsAdapterResolution, h]⟩
    · exact ⟨statusCode, by simp [nextJsAdapterResolution, h]⟩
  · intro run
    cases run with
    | endsWith status body => rfl
    | completesWithoutEnd => rfl
    | neverSettles sc =>
        by_cases h : sc = 0 <;> simp [nextJsAdapterResolution, h]
    | throwsErr errMsg => rfl

/-- C7: the streaming session's cleanup routine is idempotent — running
it twice yields the state of running it once — and two runs publish at
most one client_disconnected event beyond what was already there. -/
theorem cleanup_idempotent_single_disconnect (sid : String) (s : SseSessionState) :
    sseCleanup sid (sseCleanup sid s) = sseCleanup sid s ∧
    disconnectCount sid (sseCleanup sid (sseCleanup sid s))
      ≤ disconnectCount sid s + 1 := by
  obtain ⟨ka, sc, pc, es, pe⟩ := s
  constructor
  · cases sc <;> cases pc <;> rfl
  · cases sc <;> cases pc <;>
      simp [sseCleanup, disconnectCount, List.filter_append]

/-- C8 counterexample: on a stream whose broker subscription attempt
fails, the second frame is the error frame — neither a ping nor a
forwarded event. -/
theorem stream_frames_counterexample :
    ¬ ∀ f ∈ (sseFrames "abc" [StreamOccurrence.subscribeFailed "redis down"]).tail,
        isPingOrEvent f = true := by
  intro h
  have hmem : SseFrame.errorFrame "redis down"
      ∈ (sseFrames "abc" [StreamOccurrence.subscribeFailed "redis down"]).tail := by
    simp [sseFrames, occurrenceFrame]
  exact absurd (h _ hmem) (by simp [isPingOrEvent])

/-- C8 amended: on every accepted stream whose broker subscription does
not fail, the first frame is exactly the connection object with the
session id, and every subsequent frame is either a keep-alive ping or a
broker event forwarded with its exact payload. -/
theorem stream_frames_shape (sid : String) (occurrences : List StreamOccurrence)
    (h : occurrences.all (fun o => !isSubscribeFailure o) = true) :
    (sseFrames sid occurrences).head? = some (SseFrame.connection sid) ∧
    ∀ f ∈ (sseFrames sid occurrences).tail,
      (∃ t, f = SseFrame.ping t ∧ StreamOccurrence.keepAliveTick t ∈ occurrences) ∨
      (∃ m, f = SseFrame.eventFrame m ∧ StreamOccurrence.brokerEvent m ∈ occurrences) := by
  constructor
  · rfl
  · intro f hf
    simp only [sseFrames, List.tail_cons, List.mem_map] at hf
    obtain ⟨o, ho, rfl⟩ := hf
    cases o with
    | keepAliveTick t => exact Or.inl ⟨t, rfl, ho⟩
    | brokerEvent m => exact Or.inr ⟨m, rfl, ho⟩
    | subscribeFailed e =>
        have := List.all_eq_true.mp h _ ho
        simp [isSubscribeFailure] at this

/-- Witness for C8 at a concrete stream with a ping and one event. -/
theorem stream_frames_shape_witness :
    (sseFrames "abc" [StreamOccurrence.keepAliveTick 30,
        StreamOccurrence.brokerEvent "payload"]).head?
      = some (SseFrame.connection "abc") ∧
    ∀ f ∈ (sseFrames "abc" [StreamOccurrence.keepAliveTick 30,
        StreamOccurrence.brokerEvent "payload"]).tail,
      (∃ t, f = SseFrame.ping t ∧ StreamOccurrence.keepAliveTick t
          ∈ [StreamOccurrence.keepAliveTick 30, StreamOccurrence.brokerEvent "payload"]) ∨
      (∃ m, f = SseFrame.eventFrame m ∧ StreamOccurrence.brokerEvent m
          ∈ [StreamOccurrence.keepAliveTick 30, StreamOccurrence.brokerEvent "payload"]) :=
  stream_frames_shape "abc"
    [StreamOccurrence.keepAliveTick 30, StreamOccurrence.brokerEvent "payload"]
    (by decide)

/-- C9: serializing an inbound request into the JSON envelope and
reconstructing the synthetic transport from the parsed envelope yields
a transport whose method, url and headers equal the original's. -/
theorem serialize_reconstruct_preserves_transport (requestId : String)
    (req : IncomingRequest) (m u : String)
    (hm : req.method = some m) (hu : req.url = some u) :
    ∃ fake : FakeIncomingMessage,
      (jsonToRequestEnvelope (requestEnvelopeToJson
          (serializeRequest requestId req))).map reconstructTransport = some fake ∧
      fake.method = m ∧ fake.url = u ∧ fake.headers = req.headers := by
  refine ⟨reconstructTransport (serializeRequest requestId req), ?_, ?_, ?_, rfl⟩
  · rw [request_envelope_round_trip]
    rfl
  · simp [reconstructTransport, createFakeIncomingMessage, serializeRequest, hm]
  · simp [reconstructTransport, createFakeIncomingMessage, serializeRequest, hu]

/-- Witness for C9 at a concrete inbound request. -/
theorem serialize_reconstruct_witness :
    ∃ fake : FakeIncomingMessage,
      (jsonToRequestEnvelope (requestEnvelopeToJson
          (serializeRequest "req-9" sampleRequest))).map reconstructTransport = some fake ∧
      fake.method = "POST" ∧ fake.url = "/message?sessionId=abc" ∧
      fake.headers = sampleRequest.headers :=
  serialize_reconstruct_preserves_transport "req-9" sampleRequest
    "POST" "/message?sessionId=abc" rfl rfl

/-- C10: the adapter's caller-facing promise is resolved exactly with
the first resolution attempt that fires; every later attempt passes
through safeResolve's isResolved guard and changes nothing. -/
theorem promise_resolved_at_most_once (first : Resolution) (rest : List Resolution) :
    runResolutionAttempts (first :: rest) = some first := by
  have aux : ∀ (l : List Resolution) (r : Resolution),
      List.foldl safeResolve (some r) l = some r := by
    intro l
    induction l with
    | nil => intro r; rfl
    | cons a l ih => intro r; exact ih r
  exact aux rest first

end McpBridge
